import Mathlib

/-!
Verification of the face-to-parameter mapping pipeline of the
`live2d-model-view` repository
(src/next-app/app/move-display/Live2DCameraViewer.tsx).

Numbers are embedded as rationals (`ℚ`); every decimal constant in the
source (0.3, 0.5, 0.40, ...) is exactly representable.  The mutable
per-channel smoothing variables become an explicit `SmoothState` record
threaded through the frame functions; calls to `setParameter` become an
explicit write list; JavaScript exceptions (property access on
`undefined`, a throwing solver call) become `Except`, whose error value
carries the mutations and writes performed before the throw, since the
source's `catch` does not roll anything back.
-/

namespace Live2D

/-- `const SMOOTHING_FACTOR = 0.3` (line 261 of Live2DCameraViewer.tsx). -/
def SMOOTHING_FACTOR : ℚ := 0.3

/-- One exponential-moving-average update,
`smoothed += (raw - smoothed) * SMOOTHING_FACTOR`,
the update statement used verbatim for every smoothing variable in
`updateLive2DParameters`. -/
def smoothStep (smoothed raw : ℚ) : ℚ :=
  smoothed + (raw - smoothed) * SMOOTHING_FACTOR

/-- `Math.max(lo, Math.min(hi, v))`, the clamping idiom used throughout
`updateLive2DParameters`. -/
def clamp (lo hi v : ℚ) : ℚ := max lo (min hi v)

/-- Iterating the EMA update with a constant raw input. -/
def smoothIter (a v : ℚ) : Nat → ℚ
  | 0 => a
  | n + 1 => smoothStep (smoothIter a v n) v

/-- The thirteen per-channel smoothing accumulators declared at lines
246-258 of the source (`let smoothedAngleX = 0; ...`). -/
structure SmoothState where
  smoothedAngleX : ℚ
  smoothedAngleY : ℚ
  smoothedAngleZ : ℚ
  smoothedBodyAngleX : ℚ
  smoothedBodyAngleY : ℚ
  smoothedBodyAngleZ : ℚ
  smoothedMouthOpen : ℚ
  smoothedLeftEyeOpen : ℚ
  smoothedRightEyeOpen : ℚ
  smoothedEyeX : ℚ
  smoothedEyeY : ℚ
  smoothedHeadX : ℚ
  smoothedHeadY : ℚ
  deriving Repr, DecidableEq

/-- All thirteen accumulators are initialized to `0` in the source. -/
def initSmoothState : SmoothState :=
  ⟨0, 0, 0, 0, 0, 0, 0, 0, 0, 0, 0, 0, 0⟩

/-- One MediaPipe landmark; only the `x` and `y` coordinates are read by
the pipeline. -/
structure Landmark where
  x : ℚ
  y : ℚ
  deriving Repr, DecidableEq

/-- A `setParameter` call: parameter id and value. -/
abbrev Write := String × ℚ

/-- `riggedFace.head.degrees` from the Kalidokit solver result. -/
structure HeadDegrees where
  x : ℚ
  y : ℚ
  z : ℚ
  deriving Repr, DecidableEq

/-- `riggedFace.mouth`: `y` always read, `x` only when defined. -/
structure MouthResult where
  y : ℚ
  x : Option ℚ
  deriving Repr, DecidableEq

/-- The fields of the Kalidokit rigging result that the source reads,
each guarded by a truthiness check (`if (riggedFace.head) ...`). -/
structure RiggedFace where
  head : Option HeadDegrees
  eye : Option (ℚ × ℚ)
  pupil : Option (ℚ × ℚ)
  mouth : Option MouthResult
  brow : Option (ℚ × ℚ)
  deriving Repr, DecidableEq

/-- Outcome of the external `Kalidokit.Face.solve` call for one frame:
it may throw, return a falsy result, or return a rigging result. -/
inductive SolveOutcome where
  | throw : SolveOutcome
  | nullFace : SolveOutcome
  | face : RiggedFace → SolveOutcome
  deriving Repr, DecidableEq

/-- The detection-callback argument: `results.multiFaceLandmarks`
(absent or empty modelled as `[]`), together with this frame's solver
outcome when Kalidokit is available (`none` selects the fallback
branch, mirroring the startup capability check). -/
structure FrameInput where
  multiFaceLandmarks : List (List Landmark)
  kalidokit : Option SolveOutcome
  deriving Repr, DecidableEq

/-- Lines 316-348 of the source: clamp the solver degrees to ±30, fold
them into the head EMA accumulators, write `ParamAngleX/Y/Z`, derive the
body targets as `smoothedAngle* * 0.5`, fold those into the body EMA
accumulators and write `ParamBodyAngleX/Y/Z`. -/
def solverHeadUpdate (s : SmoothState) (d : HeadDegrees) :
    SmoothState × List Write :=
  let targetAngleX := clamp (-30) 30 d.x
  let targetAngleY := clamp (-30) 30 d.y
  let targetAngleZ := clamp (-30) 30 d.z
  let sAX := smoothStep s.smoothedAngleX targetAngleX
  let sAY := smoothStep s.smoothedAngleY targetAngleY
  let sAZ := smoothStep s.smoothedAngleZ targetAngleZ
  let targetBodyX := sAX * 0.5
  let targetBodyY := sAY * 0.5
  let targetBodyZ := sAZ * 0.5
  let sBX := smoothStep s.smoothedBodyAngleX targetBodyX
  let sBY := smoothStep s.smoothedBodyAngleY targetBodyY
  let sBZ := smoothStep s.smoothedBodyAngleZ targetBodyZ
  ({ s with
      smoothedAngleX := sAX, smoothedAngleY := sAY, smoothedAngleZ := sAZ,
      smoothedBodyAngleX := sBX, smoothedBodyAngleY := sBY,
      smoothedBodyAngleZ := sBZ },
   [("ParamAngleX", sAX), ("ParamAngleY", sAY), ("ParamAngleZ", sAZ),
    ("ParamBodyAngleX", sBX), ("ParamBodyAngleY", sBY),
    ("ParamBodyAngleZ", sBZ)])

/-- The Kalidokit branch (lines 303-377): on a solver throw the partial
effects (none yet) are carried to the `catch`; on a falsy result nothing
happens; otherwise each present field of the rigging result is applied. -/
def solverPipeline (s : SmoothState) (o : SolveOutcome) :
    Except (SmoothState × List Write) (SmoothState × List Write) :=
  match o with
  | .throw => .error (s, [])
  | .nullFace => .ok (s, [])
  | .face rf =>
    let (s, ws) := match rf.head with
      | some d => solverHeadUpdate s d
      | none => (s, [])
    let ws := ws ++ (match rf.eye with
      | some (l, r) => [("ParamEyeLOpen", l), ("ParamEyeROpen", r)]
      | none => [])
    let ws := ws ++ (match rf.pupil with
      | some (px, py) => [("ParamEyeBallX", px), ("ParamEyeBallY", py)]
      | none => [])
    let ws := ws ++ (match rf.mouth with
      | some m => ("ParamMouthOpenY", m.y) ::
          (match m.x with
            | some mx => [("ParamMouthForm", mx)]
            | none => [])
      | none => [])
    let ws := ws ++ (match rf.brow with
      | some (bl, br) => [("ParamBrowLY", bl), ("ParamBrowRY", br)]
      | none => [])
    .ok (s, ws)

/-- The fallback branch (lines 379-436).  Landmark array accesses are
modelled with `List.get?`; reading a property of an out-of-range
landmark is a JavaScript `TypeError`, modelled as `Except.error`
carrying the accumulator mutations performed before the throw (the
source mutates the `smoothed*` variables in statement order and issues
every `setParameter` call only after the last landmark access). -/
def fallbackPipeline (s : SmoothState) (landmarks : List Landmark) :
    Except (SmoothState × List Write) (SmoothState × List Write) :=
  match landmarks.get? 33, landmarks.get? 263 with
  | some leftEye, some rightEye =>
    let faceCenterX := (leftEye.x + rightEye.x) / 2
    let faceCenterY := (leftEye.y + rightEye.y) / 2
    let headPosX := (faceCenterX - 0.5) * 100
    let headPosY := (faceCenterY - 0.5) * 100
    let s := { s with
      smoothedHeadX := smoothStep s.smoothedHeadX headPosX,
      smoothedHeadY := smoothStep s.smoothedHeadY headPosY }
    match landmarks.get? 1 with
    | some noseTip =>
      let rawAngleX := (noseTip.x - faceCenterX) * 200
      let s := { s with smoothedAngleX := smoothStep s.smoothedAngleX rawAngleX }
      let rawAngleY := (noseTip.y - faceCenterY) * 200
      let s := { s with smoothedAngleY := smoothStep s.smoothedAngleY rawAngleY }
      match landmarks.get? 234, landmarks.get? 454 with
      | some leftEar, some rightEar =>
        let rawAngleZ := (leftEar.y - rightEar.y) * 200
        let s := { s with smoothedAngleZ := smoothStep s.smoothedAngleZ rawAngleZ }
        let eyeLookX := (noseTip.x - faceCenterX) * 150
        let eyeLookY := (noseTip.y - faceCenterY) * 150
        let s := { s with
          smoothedEyeX := smoothStep s.smoothedEyeX eyeLookX,
          smoothedEyeY := smoothStep s.smoothedEyeY eyeLookY }
        match landmarks.get? 13, landmarks.get? 14 with
        | some upperLip, some lowerLip =>
          let rawMouthOpen := |upperLip.y - lowerLip.y| * 40
          let s := { s with
            smoothedMouthOpen := smoothStep s.smoothedMouthOpen rawMouthOpen }
          match landmarks.get? 159, landmarks.get? 145,
                landmarks.get? 386, landmarks.get? 374 with
          | some leftEyeTop, some leftEyeBottom,
            some rightEyeTop, some rightEyeBottom =>
            let rawLeftEyeOpen := |leftEyeTop.y - leftEyeBottom.y| * 30
            let rawRightEyeOpen := |rightEyeTop.y - rightEyeBottom.y| * 30
            let s := { s with
              smoothedLeftEyeOpen :=
                smoothStep s.smoothedLeftEyeOpen rawLeftEyeOpen,
              smoothedRightEyeOpen :=
                smoothStep s.smoothedRightEyeOpen rawRightEyeOpen }
            .ok (s,
              [("ParamBodyAngleX", clamp (-30) 30 s.smoothedHeadX),
               ("ParamAngleX", clamp (-70) 70 s.smoothedAngleX),
               ("ParamAngleY", clamp (-70) 70 s.smoothedAngleY),
               ("ParamAngleZ", clamp (-50) 50 s.smoothedAngleZ),
               ("ParamMouthOpenY", clamp 0 1 s.smoothedMouthOpen),
               ("ParamEyeLOpen", clamp 0 1 s.smoothedLeftEyeOpen),
               ("ParamEyeROpen", clamp 0 1 s.smoothedRightEyeOpen),
               ("ParamEyeBallX", clamp (-1) 1 s.smoothedEyeX),
               ("ParamEyeBallY", clamp (-1) 1 s.smoothedEyeY)])
          | _, _, _, _ => .error (s, [])
        | _, _ => .error (s, [])
      | _, _ => .error (s, [])
    | _ => .error (s, [])
  | _, _ => .error (s, [])

/-- The body of the `try` block of `updateLive2DParameters`: the
Kalidokit branch when the solver is available, the landmark fallback
otherwise. -/
def framePipeline (s : SmoothState) (landmarks : List Landmark)
    (kalidokit : Option SolveOutcome) :
    Except (SmoothState × List Write) (SmoothState × List Write) :=
  match kalidokit with
  | some o => solverPipeline s o
  | none => fallbackPipeline s landmarks

/-- `updateLive2DParameters` (lines 266-441): early return when the
model is not ready or no face landmarks are present; otherwise run the
pipeline under the `try`/`catch`, which keeps the effects performed
before a throw. -/
def updateLive2DParameters (modelReady : Bool) (s : SmoothState)
    (r : FrameInput) : SmoothState × List Write :=
  if !modelReady then (s, [])
  else
    match r.multiFaceLandmarks with
    | [] => (s, [])
    | landmarks :: _ =>
      match framePipeline s landmarks r.kalidokit with
      | .ok out => out
      | .error out => out

/-- Folding the frame driver over a sequence of detection results. -/
def processFrames (modelReady : Bool) : SmoothState → List FrameInput → SmoothState
  | s, [] => s
  | s, r :: rest =>
      processFrames modelReady (updateLive2DParameters modelReady s r).1 rest

/-- Accumulator state after one frame of a solver-strategy session
(the caught state when the solver threw). -/
def solverStepState (s : SmoothState) (o : SolveOutcome) : SmoothState :=
  match solverPipeline s o with
  | .ok out => out.1
  | .error out => out.1

/-- Parameter writes issued by one frame of a solver-strategy session. -/
def solverStepWrites (s : SmoothState) (o : SolveOutcome) : List Write :=
  match solverPipeline s o with
  | .ok out => out.2
  | .error out => out.2

/-- State evolution of a session that always uses the solver branch. -/
def solverFrames (s : SmoothState) : List SolveOutcome → SmoothState
  | [] => s
  | o :: rest => solverFrames (solverStepState s o) rest

/-- A full MediaPipe landmark list (468 points) with the eleven indices
the fallback branch reads set to the given landmarks and every other
index at the origin. -/
def mkLandmarks (noseTip upperLip lowerLip leftEye leftEyeBottom
    leftEyeTop leftEar rightEye rightEyeBottom rightEyeTop rightEar :
    Landmark) : List Landmark :=
  (List.range 468).map fun i =>
    if i = 1 then noseTip
    else if i = 13 then upperLip
    else if i = 14 then lowerLip
    else if i = 33 then leftEye
    else if i = 145 then leftEyeBottom
    else if i = 159 then leftEyeTop
    else if i = 234 then leftEar
    else if i = 263 then rightEye
    else if i = 374 then rightEyeBottom
    else if i = 386 then rightEyeTop
    else if i = 454 then rightEar
    else ⟨0, 0⟩

/-- The puppet's parameter table (`internalModel.coreModel`), a
name-to-value mapping with distinct names. -/
structure CoreModel where
  params : List (String × ℚ)
  deriving Repr, DecidableEq

/-- `coreModel.getParameterIndex(paramId)`: index of the parameter, or
a negative value when the name is absent. -/
def getParameterIndex (cm : CoreModel) (paramId : String) : Int :=
  match cm.params.findIdx? (fun p => p.1 == paramId) with
  | some i => (i : Int)
  | none => -1

/-- `coreModel.setParameterValueById(paramId, value)`. -/
def setParameterValueById (cm : CoreModel) (paramId : String) (v : ℚ) :
    CoreModel :=
  ⟨cm.params.map fun p => if p.1 == paramId then (p.1, v) else p⟩

/-- Value stored for a name in the parameter table. -/
def lookupParam (cm : CoreModel) (paramId : String) : Option ℚ :=
  (cm.params.find? fun p => p.1 == paramId).map (·.2)

/-- `setParameter` (lines 289-301): skip when `coreModel` is falsy,
look the name up and write only when `getParameterIndex` is
non-negative; the surrounding `try`/`catch` makes the operation total. -/
def setParameter (cm : Option CoreModel) (paramId : String) (v : ℚ) :
    Option CoreModel :=
  match cm with
  | none => none
  | some m =>
    if 0 ≤ getParameterIndex m paramId then
      some (setParameterValueById m paramId v)
    else
      some m

end Live2D

namespace Live2D

/-! ## Shared helper lemmas -/

theorem clamp_of_mem (lo hi v : ℚ) (h1 : lo ≤ v) (h2 : v ≤ hi) :
    clamp lo hi v = v := by
  simp [clamp, max_eq_right, min_eq_left, h1, h2]

theorem clamp_abs_le (b x : ℚ) (hb : 0 ≤ b) : |clamp (-b) b x| ≤ b := by
  rw [abs_le]
  exact ⟨le_max_left _ _, max_le (by linarith) (min_le_left _ _)⟩

theorem smoothStep_abs_le (a t b : ℚ) (ha : |a| ≤ b) (ht : |t| ≤ b) :
    |smoothStep a t| ≤ b := by
  rw [abs_le] at *
  unfold smoothStep SMOOTHING_FACTOR
  constructor <;> nlinarith [ha.1, ha.2, ht.1, ht.2]

theorem lookup_setParamValue_ne (cm : CoreModel) (pid other : String)
    (hne : other ≠ pid) (v : ℚ) :
    lookupParam (setParameterValueById cm pid v) other = lookupParam cm other := by
  unfold lookupParam setParameterValueById
  rw [List.find?_map]
  have hp : ((fun p => p.1 == other) ∘ fun p : String × ℚ =>
      if p.1 == pid then (p.1, v) else p) = fun p : String × ℚ => p.1 == other := by
    funext p; by_cases h : p.1 = pid <;> simp [h]
  rw [hp]
  cases hf : cm.params.find? (fun p => p.1 == other) with
  | none => simp
  | some q =>
    have hq : q.1 = other := by simpa using List.find?_some hf
    have hqp : q.1 ≠ pid := by rw [hq]; exact hne
    simp [hqp]

end Live2D

namespace Live2D

/-! ## Claim theorems -/

/-- C1: every per-frame smoother update is
`smoothed' = smoothed + (raw - smoothed) * 0.3` with the single fixed
factor 0.3, all thirteen accumulators start at 0, and from accumulator 0
the constant raw sequence [10,10,10,10] yields accumulators
[3.0, 5.1, 6.57, 7.599]. -/
theorem C1_ema_step_init_and_sequence :
    SMOOTHING_FACTOR = 0.3 ∧
    (∀ smoothed raw : ℚ,
      smoothStep smoothed raw = smoothed + (raw - smoothed) * 0.3) ∧
    (initSmoothState.smoothedAngleX = 0 ∧
     initSmoothState.smoothedAngleY = 0 ∧
     initSmoothState.smoothedAngleZ = 0 ∧
     initSmoothState.smoothedBodyAngleX = 0 ∧
     initSmoothState.smoothedBodyAngleY = 0 ∧
     initSmoothState.smoothedBodyAngleZ = 0 ∧
     initSmoothState.smoothedMouthOpen = 0 ∧
     initSmoothState.smoothedLeftEyeOpen = 0 ∧
     initSmoothState.smoothedRightEyeOpen = 0 ∧
     initSmoothState.smoothedEyeX = 0 ∧
     initSmoothState.smoothedEyeY = 0 ∧
     initSmoothState.smoothedHeadX = 0 ∧
     initSmoothState.smoothedHeadY = 0) ∧
    (smoothIter 0 10 1 = 3.0 ∧ smoothIter 0 10 2 = 5.1 ∧
     smoothIter 0 10 3 = 6.57 ∧ smoothIter 0 10 4 = 7.599) := by
  refine ⟨rfl, fun a r => rfl, ⟨rfl, rfl, rfl, rfl, rfl, rfl, rfl, rfl,
    rfl, rfl, rfl, rfl, rfl⟩, ?_⟩
  refine ⟨?_, ?_, ?_, ?_⟩ <;>
    norm_num [smoothIter, smoothStep, SMOOTHING_FACTOR]

/-- C2 counterexample: with all accumulators at 0 and solver head
degrees (10, 0, 0), the claim predicts a body-X target of
`0.5 * 10 = 5` (0.5 times the pre-smoothing head rotation) and hence a
body accumulator of `smoothStep 0 5 = 1.5`, but the code folds in
`0.5 * smoothStep 0 10 = 1.5` only after smoothing the head angle and
produces `0.45`. -/
theorem C2_body_target_counterexample :
    (solverHeadUpdate initSmoothState ⟨10, 0, 0⟩).1.smoothedBodyAngleX = 0.45 ∧
    smoothStep initSmoothState.smoothedBodyAngleX
      ((clamp (-30) 30 (10 : ℚ)) * 0.5) = 1.5 ∧
    (0.45 : ℚ) ≠ 1.5 := by
  refine ⟨?_, ?_, by norm_num⟩ <;>
    norm_num [solverHeadUpdate, smoothStep, clamp, SMOOTHING_FACTOR,
      initSmoothState]

/-- C2 amended: the body-rotation target on each axis is 0.5 times the
head-angle accumulator as already updated this frame (clamped, then
smoothed), and that target is folded into the body channel EMA
accumulator, separate from the head accumulator, whose value is written
to ParamBodyAngleX/Y/Z. -/
theorem C2_body_target_amended (s : SmoothState) (d : HeadDegrees) :
    (solverHeadUpdate s d).1.smoothedBodyAngleX
      = smoothStep s.smoothedBodyAngleX
          ((solverHeadUpdate s d).1.smoothedAngleX * 0.5) ∧
    (solverHeadUpdate s d).1.smoothedBodyAngleY
      = smoothStep s.smoothedBodyAngleY
          ((solverHeadUpdate s d).1.smoothedAngleY * 0.5) ∧
    (solverHeadUpdate s d).1.smoothedBodyAngleZ
      = smoothStep s.smoothedBodyAngleZ
          ((solverHeadUpdate s d).1.smoothedAngleZ * 0.5) ∧
    ("ParamBodyAngleX", (solverHeadUpdate s d).1.smoothedBodyAngleX)
      ∈ (solverHeadUpdate s d).2 ∧
    ("ParamBodyAngleY", (solverHeadUpdate s d).1.smoothedBodyAngleY)
      ∈ (solverHeadUpdate s d).2 ∧
    ("ParamBodyAngleZ", (solverHeadUpdate s d).1.smoothedBodyAngleZ)
      ∈ (solverHeadUpdate s d).2 := by
  refine ⟨rfl, rfl, rfl, ?_, ?_, ?_⟩ <;> simp [solverHeadUpdate]

/-- C3: in the solver branch each head-degree axis is clamped into
[-30, 30] and the clamped value is the EMA input; the degrees
(45, -10, 5) clamp to (30, -10, 5). -/
theorem C3_clamp_before_smoothing (s : SmoothState) (d : HeadDegrees) :
    ((solverHeadUpdate s d).1.smoothedAngleX
        = smoothStep s.smoothedAngleX (clamp (-30) 30 d.x) ∧
     (solverHeadUpdate s d).1.smoothedAngleY
        = smoothStep s.smoothedAngleY (clamp (-30) 30 d.y) ∧
     (solverHeadUpdate s d).1.smoothedAngleZ
        = smoothStep s.smoothedAngleZ (clamp (-30) 30 d.z)) ∧
    (clamp (-30) 30 (45 : ℚ) = 30 ∧ clamp (-30) 30 (-10 : ℚ) = -10 ∧
     clamp (-30) 30 (5 : ℚ) = 5) := by
  refine ⟨⟨rfl, rfl, rfl⟩, ?_, ?_, ?_⟩ <;> norm_num [clamp]

/-- C4: a face-absent frame returns before any mutation: the state is
unchanged and no parameter is written, and any number of consecutive
face-absent frames leaves the state exactly where the last face left
it. -/
theorem C4_no_face_frame_is_frozen (s : SmoothState)
    (k : Option SolveOutcome) (n : Nat) :
    updateLive2DParameters true s ⟨[], k⟩ = (s, []) ∧
    processFrames true s (List.replicate n ⟨[], k⟩) = s := by
  refine ⟨rfl, ?_⟩
  induction n with
  | zero => rfl
  | succ m ih => simpa [List.replicate, processFrames] using ih

/-- C5: feeding the constant raw value v for n frames into one smoother
channel starting from accumulator a gives exactly
`v + (a - v) * (1 - 0.3) ^ n`, so the accumulator converges to v. -/
theorem C5_constant_input_closed_form (a v : ℚ) (n : Nat) :
    smoothIter a v n = v + (a - v) * (1 - SMOOTHING_FACTOR) ^ n ∧
    SMOOTHING_FACTOR = 0.3 := by
  refine ⟨?_, rfl⟩
  induction n with
  | zero => simp [smoothIter]
  | succ m ih => rw [smoothIter, smoothStep, ih, pow_succ]; ring

/-- C7: the range clamp is a pure saturating function: it returns
in-domain values unchanged (hence is idempotent), is monotone, and
truncates out-of-domain values to the nearest bound. -/
theorem C7_clamp_saturating (lo hi v w : ℚ) :
    (lo ≤ v → v ≤ hi → clamp lo hi v = v) ∧
    clamp lo hi (clamp lo hi v) = clamp lo hi v ∧
    (v ≤ w → clamp lo hi v ≤ clamp lo hi w) ∧
    (v < lo → clamp lo hi v = lo) ∧
    (lo ≤ hi → hi < v → clamp lo hi v = hi) := by
  refine ⟨clamp_of_mem lo hi v, ?_, ?_, ?_, ?_⟩
  · rcases le_total lo hi with h | h
    · exact clamp_of_mem _ _ _ (le_max_left _ _) (max_le h (min_le_left _ _))
    · have hv : ∀ u : ℚ, clamp lo hi u = lo := fun u => by
        simp [clamp, max_eq_left ((min_le_left hi u).trans h)]
      rw [hv, hv]
  · intro h; unfold clamp; gcongr
  · intro h
    exact max_eq_left ((min_le_right hi v).trans h.le)
  · intro hlh h
    rw [clamp, min_eq_left h.le, max_eq_right hlh]

/-- C7 witness: the clamp facts at the concrete domain [0, 1] with
in-domain value 0.5 and out-of-domain values -3 and 2. -/
theorem C7_clamp_saturating_witness :
    clamp 0 1 (0.5 : ℚ) = 0.5 ∧ clamp 0 1 (-3 : ℚ) ≤ clamp 0 1 (2 : ℚ) ∧
    clamp 0 1 (-3 : ℚ) = 0 ∧ clamp 0 1 (2 : ℚ) = 1 :=
  ⟨(C7_clamp_saturating 0 1 0.5 0).1 (by norm_num) (by norm_num),
   (C7_clamp_saturating 0 1 (-3) 2).2.2.1 (by norm_num),
   (C7_clamp_saturating 0 1 (-3) 0).2.2.2.1 (by norm_num),
   (C7_clamp_saturating 0 1 2 0).2.2.2.2 (by norm_num) (by norm_num)⟩

end Live2D

namespace Live2D

/-- Every error the fallback branch can raise carries an empty write
list: the source performs all of its `setParameter` calls only after the
last fallible landmark access. -/
theorem fallbackPipeline_error_writes (s : SmoothState)
    (lms : List Landmark) (out : SmoothState × List Write)
    (h : fallbackPipeline s lms = .error out) : out.2 = [] := by
  unfold fallbackPipeline at h
  rcases h33 : lms.get? 33 with _ | le <;> rw [h33] at h <;>
  rcases h263 : lms.get? 263 with _ | re <;> rw [h263] at h <;>
  try (cases h; rfl)
  rcases h1 : lms.get? 1 with _ | nt <;> rw [h1] at h <;>
  try (cases h; rfl)
  rcases h234 : lms.get? 234 with _ | lea <;> rw [h234] at h <;>
  rcases h454 : lms.get? 454 with _ | rea <;> rw [h454] at h <;>
  try (cases h; rfl)
  rcases h13 : lms.get? 13 with _ | ul <;> rw [h13] at h <;>
  rcases h14 : lms.get? 14 with _ | ll <;> rw [h14] at h <;>
  try (cases h; rfl)
  rcases h159 : lms.get? 159 with _ | a <;> rw [h159] at h <;>
  rcases h145 : lms.get? 145 with _ | b <;> rw [h145] at h <;>
  rcases h386 : lms.get? 386 with _ | c <;> rw [h386] at h <;>
  rcases h374 : lms.get? 374 with _ | d <;> rw [h374] at h <;>
  first
  | (cases h; rfl)
  | (dsimp only at h; cases h)

/-- C8: the parameter applier writes only when the name is found in the
parameter table, is a no-op on an absent name or falsy core model, and
never changes the value stored for any other name. -/
theorem C8_setParameter_contained (cm : CoreModel) (paramId : String)
    (v : ℚ) :
    (getParameterIndex cm paramId < 0 →
      setParameter (some cm) paramId v = some cm) ∧
    (∀ m', setParameter (some cm) paramId v = some m' →
      ∀ other, other ≠ paramId →
        lookupParam m' other = lookupParam cm other) ∧
    setParameter none paramId v = none := by
  refine ⟨fun h => by simp [setParameter, not_le.mpr h], ?_, rfl⟩
  intro m' hm other hne
  simp only [setParameter] at hm
  by_cases hidx : 0 ≤ getParameterIndex cm paramId
  · rw [if_pos hidx] at hm
    cases hm
    exact lookup_setParamValue_ne cm paramId other hne v
  · rw [if_neg hidx] at hm
    cases hm
    rfl

/-- C8 witness: writing an absent name leaves a concrete table intact,
and writing ParamAngleX leaves the value of ParamMouthOpenY intact. -/
theorem C8_setParameter_contained_witness :
    setParameter (some ⟨[("ParamAngleX", 0), ("ParamMouthOpenY", 1)]⟩)
        "ParamNope" 5
      = some ⟨[("ParamAngleX", 0), ("ParamMouthOpenY", 1)]⟩ ∧
    lookupParam ⟨[("ParamAngleX", 5), ("ParamMouthOpenY", 1)]⟩
        "ParamMouthOpenY"
      = lookupParam ⟨[("ParamAngleX", 0), ("ParamMouthOpenY", 1)]⟩
        "ParamMouthOpenY" :=
  ⟨(C8_setParameter_contained
      ⟨[("ParamAngleX", 0), ("ParamMouthOpenY", 1)]⟩ "ParamNope" 5).1
      (by decide),
   (C8_setParameter_contained
      ⟨[("ParamAngleX", 0), ("ParamMouthOpenY", 1)]⟩ "ParamAngleX" 5).2.1
      ⟨[("ParamAngleX", 5), ("ParamMouthOpenY", 1)]⟩ rfl
      "ParamMouthOpenY" (by decide)⟩

/-- C9: when the frame pipeline raises, the exception is caught inside
the frame handler (which returns normally), no parameter write is
issued for that frame, and processing of the following frames
continues from the caught state. -/
theorem C9_frame_exception_contained (s : SmoothState)
    (lms : List Landmark) (k : Option SolveOutcome)
    (out : SmoothState × List Write)
    (h : framePipeline s lms k = .error out) :
    out.2 = [] ∧
    updateLive2DParameters true s ⟨[lms], k⟩ = (out.1, []) ∧
    ∀ rest, processFrames true s (⟨[lms], k⟩ :: rest)
      = processFrames true out.1 rest := by
  have h2 : out.2 = [] := by
    rcases k with _ | o
    · exact fallbackPipeline_error_writes s lms out h
    · rcases o with _ | _ | rf
      · simp only [framePipeline, solverPipeline] at h
        cases h; rfl
      · simp only [framePipeline, solverPipeline] at h
        exact Except.noConfusion h
      · simp only [framePipeline, solverPipeline] at h
        exact Except.noConfusion h
  have h3 : updateLive2DParameters true s ⟨[lms], k⟩ = (out.1, []) := by
    simp only [updateLive2DParameters, h]
    rw [← h2]
    simp
  exact ⟨h2, h3, fun rest => by simp [processFrames, h3]⟩

/-- C9 witness: a frame whose landmark list is too short for the
fallback extractor raises, is caught, and leaves the state unchanged
with no write. -/
theorem C9_frame_exception_contained_witness :
    updateLive2DParameters true initSmoothState ⟨[[]], none⟩
      = (initSmoothState, []) :=
  (C9_frame_exception_contained initSmoothState [] none
    (initSmoothState, []) rfl).2.1

end Live2D

namespace Live2D

/-- Looking up index `i < 468` in `mkLandmarks` returns the landmark
assigned to that index. -/
theorem mkLandmarks_get (noseTip upperLip lowerLip leftEye leftEyeBottom
    leftEyeTop leftEar rightEye rightEyeBottom rightEyeTop rightEar :
    Landmark) (i : Nat) (h : i < 468) :
    (mkLandmarks noseTip upperLip lowerLip leftEye leftEyeBottom
      leftEyeTop leftEar rightEye rightEyeBottom rightEyeTop
      rightEar).get? i
      = some (if i = 1 then noseTip
        else if i = 13 then upperLip
        else if i = 14 then lowerLip
        else if i = 33 then leftEye
        else if i = 145 then leftEyeBottom
        else if i = 159 then leftEyeTop
        else if i = 234 then leftEar
        else if i = 263 then rightEye
        else if i = 374 then rightEyeBottom
        else if i = 386 then rightEyeTop
        else if i = 454 then rightEar
        else ⟨0, 0⟩) := by
  simp only [mkLandmarks, List.get?_map, List.get?_range h, Option.map_some']

/-- C6: on a full landmark list the fallback strategy feeds its EMA
channels exactly the fixed linear raw signals: yaw
`(noseTip.x - faceCenter.x) * 200`, pitch
`(noseTip.y - faceCenter.y) * 200`, roll
`(leftEar.y - rightEar.y) * 200`, gaze `* 150` from the same deltas,
mouth openness `|upperLip.y - lowerLip.y| * 40` and per-eye openness
`|eyelidTop.y - eyelidBottom.y| * 30`, with faceCenter the midpoint of
the two eye-corner landmarks; with upperLip.y = 0.40 and
lowerLip.y = 0.42 the raw mouth openness is 0.8. -/
theorem C6_fallback_raw_formulas (s : SmoothState) (noseTip upperLip
    lowerLip leftEye leftEyeBottom leftEyeTop leftEar rightEye
    rightEyeBottom rightEyeTop rightEar : Landmark) :
    (∃ out, fallbackPipeline s (mkLandmarks noseTip upperLip lowerLip
        leftEye leftEyeBottom leftEyeTop leftEar rightEye rightEyeBottom
        rightEyeTop rightEar) = .ok out ∧
      out.1.smoothedAngleX = smoothStep s.smoothedAngleX
        ((noseTip.x - (leftEye.x + rightEye.x) / 2) * 200) ∧
      out.1.smoothedAngleY = smoothStep s.smoothedAngleY
        ((noseTip.y - (leftEye.y + rightEye.y) / 2) * 200) ∧
      out.1.smoothedAngleZ = smoothStep s.smoothedAngleZ
        ((leftEar.y - rightEar.y) * 200) ∧
      out.1.smoothedEyeX = smoothStep s.smoothedEyeX
        ((noseTip.x - (leftEye.x + rightEye.x) / 2) * 150) ∧
      out.1.smoothedEyeY = smoothStep s.smoothedEyeY
        ((noseTip.y - (leftEye.y + rightEye.y) / 2) * 150) ∧
      out.1.smoothedMouthOpen = smoothStep s.smoothedMouthOpen
        (|upperLip.y - lowerLip.y| * 40) ∧
      out.1.smoothedLeftEyeOpen = smoothStep s.smoothedLeftEyeOpen
        (|leftEyeTop.y - leftEyeBottom.y| * 30) ∧
      out.1.smoothedRightEyeOpen = smoothStep s.smoothedRightEyeOpen
        (|rightEyeTop.y - rightEyeBottom.y| * 30)) ∧
    (|(0.40 : ℚ) - 0.42| * 40 = 0.8) := by
  have e33 : (mkLandmarks noseTip upperLip lowerLip leftEye leftEyeBottom
      leftEyeTop leftEar rightEye rightEyeBottom rightEyeTop
      rightEar).get? 33 = some leftEye := by
    rw [mkLandmarks_get noseTip upperLip lowerLip leftEye leftEyeBottom
      leftEyeTop leftEar rightEye rightEyeBottom rightEyeTop rightEar
      33 (by norm_num)]
    norm_num
  have e263 : (mkLandmarks noseTip upperLip lowerLip leftEye leftEyeBottom
      leftEyeTop leftEar rightEye rightEyeBottom rightEyeTop
      rightEar).get? 263 = some rightEye := by
    rw [mkLandmarks_get noseTip upperLip lowerLip leftEye leftEyeBottom
      leftEyeTop leftEar rightEye rightEyeBottom rightEyeTop rightEar
      263 (by norm_num)]
    norm_num
  have e1 : (mkLandmarks noseTip upperLip lowerLip leftEye leftEyeBottom
      leftEyeTop leftEar rightEye rightEyeBottom rightEyeTop
      rightEar).get? 1 = some noseTip := by
    rw [mkLandmarks_get noseTip upperLip lowerLip leftEye leftEyeBottom
      leftEyeTop leftEar rightEye rightEyeBottom rightEyeTop rightEar
      1 (by norm_num)]
    norm_num
  have e234 : (mkLandmarks noseTip upperLip lowerLip leftEye leftEyeBottom
      leftEyeTop leftEar rightEye rightEyeBottom rightEyeTop
      rightEar).get? 234 = some leftEar := by
    rw [mkLandmarks_get noseTip upperLip lowerLip leftEye leftEyeBottom
      leftEyeTop leftEar rightEye rightEyeBottom rightEyeTop rightEar
      234 (by norm_num)]
    norm_num
  have e454 : (mkLandmarks noseTip upperLip lowerLip leftEye leftEyeBottom
      leftEyeTop leftEar rightEye rightEyeBottom rightEyeTop
      rightEar).get? 454 = some rightEar := by
    rw [mkLandmarks_get noseTip upperLip lowerLip leftEye leftEyeBottom
      leftEyeTop leftEar rightEye rightEyeBottom rightEyeTop rightEar
      454 (by norm_num)]
    norm_num
  have e13 : (mkLandmarks noseTip upperLip lowerLip leftEye leftEyeBottom
      leftEyeTop leftEar rightEye rightEyeBottom rightEyeTop
      rightEar).get? 13 = some upperLip := by
    rw [mkLandmarks_get noseTip upperLip lowerLip leftEye leftEyeBottom
      leftEyeTop leftEar rightEye rightEyeBottom rightEyeTop rightEar
      13 (by norm_num)]
    norm_num
  have e14 : (mkLandmarks noseTip upperLip lowerLip leftEye leftEyeBottom
      leftEyeTop leftEar rightEye rightEyeBottom rightEyeTop
      rightEar).get? 14 = some lowerLip := by
    rw [mkLandmarks_get noseTip upperLip lowerLip leftEye leftEyeBottom
      leftEyeTop leftEar rightEye rightEyeBottom rightEyeTop rightEar
      14 (by norm_num)]
    norm_num
  have e159 : (mkLandmarks noseTip upperLip lowerLip leftEye leftEyeBottom
      leftEyeTop leftEar rightEye rightEyeBottom rightEyeTop
      rightEar).get? 159 = some leftEyeTop := by
    rw [mkLandmarks_get noseTip upperLip lowerLip leftEye leftEyeBottom
      leftEyeTop leftEar rightEye rightEyeBottom rightEyeTop rightEar
      159 (by norm_num)]
    norm_num
  have e145 : (mkLandmarks noseTip upperLip lowerLip leftEye leftEyeBottom
      leftEyeTop leftEar rightEye rightEyeBottom rightEyeTop
      rightEar).get? 145 = some leftEyeBottom := by
    rw [mkLandmarks_get noseTip upperLip lowerLip leftEye leftEyeBottom
      leftEyeTop leftEar rightEye rightEyeBottom rightEyeTop rightEar
      145 (by norm_num)]
    norm_num
  have e386 : (mkLandmarks noseTip upperLip lowerLip leftEye leftEyeBottom
      leftEyeTop leftEar rightEye rightEyeBottom rightEyeTop
      rightEar).get? 386 = some rightEyeTop := by
    rw [mkLandmarks_get noseTip upperLip lowerLip leftEye leftEyeBottom
      leftEyeTop leftEar rightEye rightEyeBottom rightEyeTop rightEar
      386 (by norm_num)]
    norm_num
  have e374 : (mkLandmarks noseTip upperLip lowerLip leftEye leftEyeBottom
      leftEyeTop leftEar rightEye rightEyeBottom rightEyeTop
      rightEar).get? 374 = some rightEyeBottom := by
    rw [mkLandmarks_get noseTip upperLip lowerLip leftEye leftEyeBottom
      leftEyeTop leftEar rightEye rightEyeBottom rightEyeTop rightEar
      374 (by norm_num)]
    norm_num
  refine ⟨⟨({ s with
      smoothedHeadX := smoothStep s.smoothedHeadX
        (((leftEye.x + rightEye.x) / 2 - 0.5) * 100),
      smoothedHeadY := smoothStep s.smoothedHeadY
        (((leftEye.y + rightEye.y) / 2 - 0.5) * 100),
      smoothedAngleX := smoothStep s.smoothedAngleX
        ((noseTip.x - (leftEye.x + rightEye.x) / 2) * 200),
      smoothedAngleY := smoothStep s.smoothedAngleY
        ((noseTip.y - (leftEye.y + rightEye.y) / 2) * 200),
      smoothedAngleZ := smoothStep s.smoothedAngleZ
        ((leftEar.y - rightEar.y) * 200),
      smoothedEyeX := smoothStep s.smoothedEyeX
        ((noseTip.x - (leftEye.x + rightEye.x) / 2) * 150),
      smoothedEyeY := smoothStep s.smoothedEyeY
        ((noseTip.y - (leftEye.y + rightEye.y) / 2) * 150),
      smoothedMouthOpen := smoothStep s.smoothedMouthOpen
        (|upperLip.y - lowerLip.y| * 40),
      smoothedLeftEyeOpen := smoothStep s.smoothedLeftEyeOpen
        (|leftEyeTop.y - leftEyeBottom.y| * 30),
      smoothedRightEyeOpen := smoothStep s.smoothedRightEyeOpen
        (|rightEyeTop.y - rightEyeBottom.y| * 30) },
    [("ParamBodyAngleX", clamp (-30) 30 (smoothStep s.smoothedHeadX
        (((leftEye.x + rightEye.x) / 2 - 0.5) * 100))),
     ("ParamAngleX", clamp (-70) 70 (smoothStep s.smoothedAngleX
        ((noseTip.x - (leftEye.x + rightEye.x) / 2) * 200))),
     ("ParamAngleY", clamp (-70) 70 (smoothStep s.smoothedAngleY
        ((noseTip.y - (leftEye.y + rightEye.y) / 2) * 200))),
     ("ParamAngleZ", clamp (-50) 50 (smoothStep s.smoothedAngleZ
        ((leftEar.y - rightEar.y) * 200))),
     ("ParamMouthOpenY", clamp 0 1 (smoothStep s.smoothedMouthOpen
        (|upperLip.y - lowerLip.y| * 40))),
     ("ParamEyeLOpen", clamp 0 1 (smoothStep s.smoothedLeftEyeOpen
        (|leftEyeTop.y - leftEyeBottom.y| * 30))),
     ("ParamEyeROpen", clamp 0 1 (smoothStep s.smoothedRightEyeOpen
        (|rightEyeTop.y - rightEyeBottom.y| * 30))),
     ("ParamEyeBallX", clamp (-1) 1 (smoothStep s.smoothedEyeX
        ((noseTip.x - (leftEye.x + rightEye.x) / 2) * 150))),
     ("ParamEyeBallY", clamp (-1) 1 (smoothStep s.smoothedEyeY
        ((noseTip.y - (leftEye.y + rightEye.y) / 2) * 150)))]),
    ?_, rfl, rfl, rfl, rfl, rfl, rfl, rfl, rfl⟩, by
      rw [abs_sub_comm, abs_of_nonneg (by norm_num : (0:ℚ) ≤ 0.42 - 0.40)]
      norm_num⟩
  unfold fallbackPipeline
  rw [e33, e263, e1, e234, e454, e13, e14, e159, e145, e386, e374]

end Live2D

namespace Live2D

/-- The head-angle accumulators of the solver branch stay within ±30
across one head update when they start within ±30, because the EMA is
a convex combination of the old value and the clamped input. -/
theorem solverHeadUpdate_angle_bound (s : SmoothState) (d : HeadDegrees)
    (hx : |s.smoothedAngleX| ≤ 30) (hy : |s.smoothedAngleY| ≤ 30)
    (hz : |s.smoothedAngleZ| ≤ 30) :
    |(solverHeadUpdate s d).1.smoothedAngleX| ≤ 30 ∧
    |(solverHeadUpdate s d).1.smoothedAngleY| ≤ 30 ∧
    |(solverHeadUpdate s d).1.smoothedAngleZ| ≤ 30 :=
  ⟨smoothStep_abs_le _ _ _ hx (clamp_abs_le 30 d.x (by norm_num)),
   smoothStep_abs_le _ _ _ hy (clamp_abs_le 30 d.y (by norm_num)),
   smoothStep_abs_le _ _ _ hz (clamp_abs_le 30 d.z (by norm_num))⟩

/-- One solver-branch frame preserves the ±30 bound on the head-angle
accumulators whatever the solver outcome. -/
theorem solverStepState_angle_bound (s : SmoothState) (o : SolveOutcome)
    (hx : |s.smoothedAngleX| ≤ 30) (hy : |s.smoothedAngleY| ≤ 30)
    (hz : |s.smoothedAngleZ| ≤ 30) :
    |(solverStepState s o).smoothedAngleX| ≤ 30 ∧
    |(solverStepState s o).smoothedAngleY| ≤ 30 ∧
    |(solverStepState s o).smoothedAngleZ| ≤ 30 := by
  rcases o with _ | _ | rf
  · exact ⟨hx, hy, hz⟩
  · exact ⟨hx, hy, hz⟩
  · rcases hh : rf.head with _ | d
    · simp only [solverStepState, solverPipeline, hh]
      exact ⟨hx, hy, hz⟩
    · simp only [solverStepState, solverPipeline, hh]
      exact solverHeadUpdate_angle_bound s d hx hy hz

/-- Any number of solver-branch frames preserves the ±30 bound on the
head-angle accumulators. -/
theorem solverFrames_angle_bound (fs : List SolveOutcome) (s : SmoothState)
    (hx : |s.smoothedAngleX| ≤ 30) (hy : |s.smoothedAngleY| ≤ 30)
    (hz : |s.smoothedAngleZ| ≤ 30) :
    |(solverFrames s fs).smoothedAngleX| ≤ 30 ∧
    |(solverFrames s fs).smoothedAngleY| ≤ 30 ∧
    |(solverFrames s fs).smoothedAngleZ| ≤ 30 := by
  induction fs generalizing s with
  | nil => exact ⟨hx, hy, hz⟩
  | cons o rest ih =>
    obtain ⟨hx2, hy2, hz2⟩ := solverStepState_angle_bound s o hx hy hz
    exact ih (solverStepState s o) hx2 hy2 hz2

set_option maxHeartbeats 2000000 in
/-- Every value a solver-branch frame writes to ParamAngleX/Y/Z is one
of the head-angle accumulators just updated from a ±30-clamped input,
hence within ±30 whenever the incoming accumulators are. -/
theorem solverStepWrites_angle_bound (s : SmoothState) (o : SolveOutcome)
    (hx : |s.smoothedAngleX| ≤ 30) (hy : |s.smoothedAngleY| ≤ 30)
    (hz : |s.smoothedAngleZ| ≤ 30) (v : ℚ)
    (hv : ("ParamAngleX", v) ∈ solverStepWrites s o ∨
      ("ParamAngleY", v) ∈ solverStepWrites s o ∨
      ("ParamAngleZ", v) ∈ solverStepWrites s o) : |v| ≤ 30 := by
  rcases o with _ | _ | rf
  · simp [solverStepWrites, solverPipeline] at hv
  · simp [solverStepWrites, solverPipeline] at hv
  · rcases hh : rf.head with _ | d <;>
    rcases he : rf.eye with _ | ⟨l, r⟩ <;>
    rcases hp : rf.pupil with _ | ⟨px, py⟩ <;>
    rcases hmm : rf.mouth with _ | m <;>
    rcases hb : rf.brow with _ | ⟨bl, br⟩
    all_goals
      simp only [solverStepWrites, solverPipeline, hh, he, hp, hmm, hb,
        solverHeadUpdate, List.mem_append, List.mem_cons, List.not_mem_nil,
        List.mem_singleton, Prod.mk.injEq, String.reduceEq, false_and,
        and_false, or_false, false_or, true_and, and_true] at hv
    all_goals try (
      rcases hmx : m.x with _ | mx <;>
      simp only [hmx, List.mem_singleton, List.not_mem_nil, Prod.mk.injEq,
        String.reduceEq, false_and, and_false, or_false, false_or] at hv)
    all_goals rcases hv with rfl | rfl | rfl
    all_goals first
      | exact smoothStep_abs_le _ _ _ hx (clamp_abs_le 30 d.x (by norm_num))
      | exact smoothStep_abs_le _ _ _ hy (clamp_abs_le 30 d.y (by norm_num))
      | exact smoothStep_abs_le _ _ _ hz (clamp_abs_le 30 d.z (by norm_num))

/-- C10: in a solver-strategy session starting from the all-zero
accumulators, the head-angle accumulators always lie within [-30, 30],
and every value a frame writes to ParamAngleX/Y/Z (which are not
re-clamped at apply time) lies within [-30, 30]. -/
theorem C10_solver_angles_bounded (fs : List SolveOutcome)
    (o : SolveOutcome) (v : ℚ) :
    (|(solverFrames initSmoothState fs).smoothedAngleX| ≤ 30 ∧
     |(solverFrames initSmoothState fs).smoothedAngleY| ≤ 30 ∧
     |(solverFrames initSmoothState fs).smoothedAngleZ| ≤ 30) ∧
    ((("ParamAngleX", v) ∈ solverStepWrites (solverFrames initSmoothState fs) o ∨
      ("ParamAngleY", v) ∈ solverStepWrites (solverFrames initSmoothState fs) o ∨
      ("ParamAngleZ", v) ∈ solverStepWrites (solverFrames initSmoothState fs) o) →
      |v| ≤ 30) := by
  obtain ⟨hx, hy, hz⟩ := solverFrames_angle_bound fs initSmoothState
    (by norm_num [initSmoothState]) (by norm_num [initSmoothState])
    (by norm_num [initSmoothState])
  exact ⟨⟨hx, hy, hz⟩,
    fun hv => solverStepWrites_angle_bound _ o hx hy hz v hv⟩

/-- C10 witness: the very first solver frame with head degrees
(45, 0, 0) writes ParamAngleX value 9 (= smoothStep 0 30), which is
within ±30. -/
theorem C10_solver_angles_bounded_witness : |(9 : ℚ)| ≤ 30 :=
  (C10_solver_angles_bounded []
      (.face ⟨some ⟨45, 0, 0⟩, none, none, none, none⟩) 9).2
    (Or.inl (by
      norm_num [solverFrames, solverStepWrites, solverPipeline,
        solverHeadUpdate, smoothStep, clamp, SMOOTHING_FACTOR,
        initSmoothState]))

end Live2D
